import Mathlib

/-!
Verification development for a two-component serverless data pipeline:
an ingest normalizer (src/ingest.py) that classifies HTTP submissions and
enqueues canonical envelopes, and a batch worker (src/worker.py) that
processes queued envelope batches with per-item failure isolation and
upserts derived records into a key-value store.

External collaborators (the JSON codec, the base64 transport decoder, the
queue and the store) are modelled as explicit function parameters; the
handlers themselves are shallow embeddings of the Python source.
-/

/-- JSON values as produced by the external JSON codec (models the result
of a successful json.loads call). -/
inductive JValue where
  | jnull : JValue
  | jbool : Bool → JValue
  | jnum : Int → JValue
  | jstr : String → JValue
  | jarr : List JValue → JValue
  | jobj : List (String × JValue) → JValue

mutual

/-- Boolean equality on JSON values. -/
def JValue.beq : JValue → JValue → Bool
  | .jnull, .jnull => true
  | .jbool a, .jbool b => a == b
  | .jnum a, .jnum b => a == b
  | .jstr a, .jstr b => a == b
  | .jarr xs, .jarr ys => JValue.beqList xs ys
  | .jobj xs, .jobj ys => JValue.beqFields xs ys
  | _, _ => false

/-- Boolean equality on lists of JSON values. -/
def JValue.beqList : List JValue → List JValue → Bool
  | [], [] => true
  | x :: xs, y :: ys => JValue.beq x y && JValue.beqList xs ys
  | _, _ => false

/-- Boolean equality on JSON object field lists. -/
def JValue.beqFields : List (String × JValue) → List (String × JValue) → Bool
  | [], [] => true
  | (k, v) :: xs, (k', v') :: ys => k == k' && JValue.beq v v' && JValue.beqFields xs ys
  | _, _ => false

end

/-- Lookup in an association list with Python-dict semantics: a later
binding of the same key overrides an earlier one (as in a dict
comprehension or json object with duplicate keys). -/
def lookupLast {α : Type} (xs : List (String × α)) (k : String) : Option α :=
  match xs with
  | [] => none
  | (k', v) :: rest =>
    match lookupLast rest k with
    | some r => some r
    | none => if k' == k then some v else none

/-- Whether the first list is an initial segment of the second. -/
def leadMatch : List Char → List Char → Bool
  | [], _ => true
  | _ :: _, [] => false
  | a :: as, b :: bs => a == b && leadMatch as bs

/-- Whether the needle occurs as a contiguous run inside the haystack. -/
def hasSub (needle : List Char) : List Char → Bool
  | [] => leadMatch needle []
  | h :: t => leadMatch needle (h :: t) || hasSub needle t

/-- The Python membership test for strings: needle in haystack. -/
def pyIn (needle haystack : String) : Bool :=
  hasSub needle.toList haystack.toList

/-- Lower-case hexadecimal digit for a value below 16. -/
def hexChar (n : Nat) : Char :=
  if n < 10 then Char.ofNat (48 + n) else Char.ofNat (87 + n)

/-- Fixed-width lower-case hexadecimal rendering of a natural number
(most significant digit first, truncated to the given width). -/
def hexFixed : Nat → Nat → List Char
  | 0, _ => []
  | w + 1, v => hexFixed w (v / 16) ++ [hexChar (v % 16)]

/-- The canonical 8-4-4-4-12 string form of a version-4 UUID built from the
random generator output n, as produced by str(uuid.uuid4()).  (The uuid4
version/variant bit-forcing is elided: no claim depends on those bits.) -/
def uuidStr (n : Nat) : String :=
  String.mk (hexFixed 8 (n / 2 ^ 96) ++ '-' :: hexFixed 4 (n / 2 ^ 80)
    ++ '-' :: hexFixed 4 (n / 2 ^ 64) ++ '-' :: hexFixed 4 (n / 2 ^ 48)
    ++ '-' :: hexFixed 12 n)

/-- The inbound gateway event consumed by the ingest handler:
a header mapping, a body, and the transport-encoding flag. -/
structure IngestEvent where
  headers : List (String × String)
  body : String
  isBase64Encoded : Bool

/-- Body of an HTTP response: either a plain string or the json.dumps
rendering of a dict (kept structured in the model). -/
inductive RespBody where
  | text : String → RespBody
  | json : List (String × JValue) → RespBody

/-- HTTP response returned by the ingest handler. -/
structure HttpResp where
  statusCode : Nat
  body : RespBody

/-- A message dict passed to sqs.send_message (the envelope). -/
abbrev Msg : Type := List (String × JValue)

/-- Result of one ingest invocation: the HTTP response together with the
list of send_message calls made (the queue-effect log; one entry per
call, whether or not the queue accepted it). -/
structure IngestResult where
  resp : HttpResp
  sendCalls : List Msg

/-- Python str.lower on one character, restricted to ASCII (header names
and content types are ASCII). -/
def pyLowerChar (c : Char) : Char :=
  if 'A' ≤ c && c ≤ 'Z' then Char.ofNat (c.toNat + 32) else c

/-- Python str.lower, restricted to ASCII. -/
def pyLower (s : String) : String := String.mk (s.toList.map pyLowerChar)

/-- Header-key normalization from the handler:
headers = (k.lower(): v for k, v in event headers). -/
def lowerHeaders (hs : List (String × String)) : List (String × String) :=
  hs.map (fun kv => (pyLower kv.1, kv.2))

/-- The three arms of the content-type dispatch in the ingest handler. -/
inductive Route where
  | jsonRoute : Route
  | textRoute : Route
  | unsupported : Route
deriving DecidableEq

/-- The content-type dispatch of src/ingest.py (step 3): Python substring
membership tests, in source order — the application/json test first, then
text/plain, else unsupported. -/
def classify (content_type : String) : Route :=
  if pyIn "application/json" content_type then Route.jsonRoute
  else if pyIn "text/plain" content_type then Route.textRoute
  else Route.unsupported

namespace Ingest

/-- The content_type value the handler dispatches on: the content-type
entry of the case-normalized header dict, defaulting to the empty string
when the header is absent. -/
def contentType (event : IngestEvent) : String :=
  (lookupLast (lowerHeaders event.headers) "content-type").getD ""

/-- Step 2 of the ingest handler: the body after optional transport
decoding; none models a raised decode error. -/
def decodedBody (b64 : String → Option String) (event : IngestEvent) : Option String :=
  if event.isBase64Encoded then b64 event.body else some event.body

/-- Steps 4-5 of the ingest handler: construct the normalized message,
push it to the queue, and return the accepted response echoing log_id;
a raising send_message call is caught by the outer handler as a 500. -/
def sendAndRespond (sendOk : Bool) (tenant_id log_id payload_text : JValue)
    (source_type : String) : IngestResult :=
  let message : Msg := [("tenant_id", tenant_id), ("log_id", log_id),
    ("original_text", payload_text), ("source", JValue.jstr source_type)]
  if sendOk then
    { resp := ⟨202, RespBody.json [("status", JValue.jstr "accepted"), ("id", log_id)]⟩,
      sendCalls := [message] }
  else
    { resp := ⟨500, RespBody.text "Internal Server Error"⟩, sendCalls := [message] }

/-- Shallow embedding of lambda_handler in src/ingest.py.

External collaborators appear as parameters: loads models json.loads
(none models a raised JSONDecodeError), b64 models the composite
base64.b64decode followed by bytes.decode utf-8 (none models a raised
error), sendOk models whether sqs.send_message succeeds, and entropy is
the random input of uuid.uuid4.  A JSON body whose top-level value is not
an object makes data.get raise an AttributeError, which the outer
catch-all converts into a 500 response. -/
def lambda_handler (loads : String → Option JValue) (b64 : String → Option String)
    (sendOk : Bool) (entropy : Nat) (event : IngestEvent) : IngestResult :=
  let headers := lowerHeaders event.headers
  let log_id0 : JValue := JValue.jstr (uuidStr entropy)
  match decodedBody b64 event with
  | none => { resp := ⟨500, RespBody.text "Internal Server Error"⟩, sendCalls := [] }
  | some body =>
    match classify (contentType event) with
    | Route.jsonRoute =>
      match loads body with
      | some (JValue.jobj data) =>
        let tenant_id := (lookupLast data "tenant_id").getD (JValue.jstr "unknown")
        let payload_text := (lookupLast data "text").getD (JValue.jstr "")
        let log_id := (lookupLast data "log_id").getD log_id0
        sendAndRespond sendOk tenant_id log_id payload_text "json_upload"
      | some _ => { resp := ⟨500, RespBody.text "Internal Server Error"⟩, sendCalls := [] }
      | none => { resp := ⟨400, RespBody.text "Invalid JSON"⟩, sendCalls := [] }
    | Route.textRoute =>
      let tenant_id := JValue.jstr ((lookupLast headers "x-tenant-id").getD "unknown")
      sendAndRespond sendOk tenant_id log_id0 (JValue.jstr body) "text_upload"
    | Route.unsupported =>
      { resp := ⟨400, RespBody.text "Unsupported Content-Type"⟩, sendCalls := [] }

end Ingest

/-- Python len() applied to a JSON value: defined for strings, lists and
dicts; a TypeError (modelled as none) for the other types. -/
def pyLen : JValue → Option Nat
  | JValue.jstr s => some s.length
  | JValue.jarr xs => some xs.length
  | JValue.jobj fs => some fs.length
  | _ => none

/-- Python slicing v[:10]: defined for strings and lists; a TypeError
(modelled as none) for the other types. -/
def pySlice10 : JValue → Option JValue
  | JValue.jstr s => some (JValue.jstr (s.take 10))
  | JValue.jarr xs => some (JValue.jarr (xs.take 10))
  | _ => none

mutual

/-- Python repr() of a JSON value (string quoting is rendered without
escape handling; no claim inspects a rendered string containing quotes). -/
def pyRepr : JValue → String
  | JValue.jnull => "None"
  | JValue.jbool true => "True"
  | JValue.jbool false => "False"
  | JValue.jnum n => toString n
  | JValue.jstr s => "'" ++ s ++ "'"
  | JValue.jarr xs => "[" ++ pyReprList xs ++ "]"
  | JValue.jobj fs => "\x7b" ++ pyReprFields fs ++ "\x7d"

/-- Comma-separated repr of list elements. -/
def pyReprList : List JValue → String
  | [] => ""
  | [x] => pyRepr x
  | x :: y :: t => pyRepr x ++ ", " ++ pyReprList (y :: t)

/-- Comma-separated repr of dict entries. -/
def pyReprFields : List (String × JValue) → String
  | [] => ""
  | [(k, v)] => "'" ++ k ++ "': " ++ pyRepr v
  | (k, v) :: y :: t => "'" ++ k ++ "': " ++ pyRepr v ++ ", " ++ pyReprFields (y :: t)

end

/-- Python str() of a JSON value, as interpolated by an f-string. -/
def pyStrOf : JValue → String
  | JValue.jstr s => s
  | v => pyRepr v

/-- The simulated processing cost of the worker, in seconds: 0.05 per
character, capped at 800 (the sleep_time computation of src/worker.py). -/
def sleepSecs (n : Nat) : ℚ :=
  if (n : ℚ) * 0.05 > 800 then 800 else (n : ℚ) * 0.05

/-- The item dict written to the store by the worker (a ProcessedRecord). -/
structure WItem where
  tenant_id : JValue
  log_id : JValue
  source : JValue
  original_text : JValue
  modified_data : String
  processed_at : String

/-- The durable key-value store: a table of ProcessedRecords keyed by the
pair (tenant_id, log_id). -/
abbrev Store : Type := List ((JValue × JValue) × WItem)

/-- Boolean equality of store keys. -/
def keyBeq (a b : JValue × JValue) : Bool :=
  JValue.beq a.1 b.1 && JValue.beq a.2 b.2

/-- The put_item write of the store collaborator: overwrite the record at the key if
present, insert it otherwise (upsert semantics). -/
def upsert (s : Store) (k : JValue × JValue) (it : WItem) : Store :=
  if s.any (fun e => keyBeq e.1 k) then
    s.map (fun e => if keyBeq e.1 k then (k, it) else e)
  else
    s ++ [(k, it)]

/-- One delivered queue message: the delivery identifier assigned by the
queue and the uninterpreted body string. -/
structure SqsRecord where
  messageId : String
  body : String

/-- Outcome of running steps 1-5 of the worker on one record: failure
before the sleep (json.loads raises, body.get raises on a non-dict, or
len(text) raises), failure after the sleep (text[:10] raises), or a fully
built item together with the slept duration. -/
inductive StepResult where
  | failEarly : StepResult
  | failAfterSleep : ℚ → StepResult
  | built : ℚ → WItem → StepResult

/-- Steps 1-5 of the worker loop body in src/worker.py for one record:
parse the body, extract fields with dict-get defaults, sleep the capped
duration, and build the item dict.  loads models json.loads and now
models datetime.utcnow().isoformat(). -/
def runRecord (loads : String → Option JValue) (now : String) (r : SqsRecord) :
    StepResult :=
  match loads r.body with
  | none => StepResult.failEarly
  | some v =>
    match v with
    | JValue.jobj body =>
      let tenant_id := (lookupLast body "tenant_id").getD JValue.jnull
      let log_id := (lookupLast body "log_id").getD JValue.jnull
      let text := (lookupLast body "original_text").getD (JValue.jstr "")
      match pyLen text with
      | none => StepResult.failEarly
      | some n =>
        let slp := sleepSecs n
        match pySlice10 text with
        | none => StepResult.failAfterSleep slp
        | some preview =>
          StepResult.built slp
            { tenant_id := tenant_id, log_id := log_id,
              source := (lookupLast body "source").getD JValue.jnull,
              original_text := text,
              modified_data := pyStrOf preview ++ "... [REDACTED]",
              processed_at := now }
    | _ => StepResult.failEarly

/-- Whether the worker marks this record as failed: any exception in
steps 1-5, or a failing put_item (putOk models the store accepting the
write). -/
def recFails (loads : String → Option JValue) (putOk : WItem → Bool) (now : String)
    (r : SqsRecord) : Bool :=
  match runRecord loads now r with
  | StepResult.built _ item => !(putOk item)
  | _ => true

/-- Result of one worker invocation: the batchItemFailures identifiers in
order, the resulting store, and the log of time.sleep durations. -/
structure WorkerOutput where
  batchItemFailures : List String
  store : Store
  sleeps : List ℚ

/-- One iteration of the worker for-loop: the per-record try/except.
A failure appends the messageId of the record to batchItemFailures and leaves
the store untouched; a success upserts the item keyed by
(tenant_id, log_id). -/
def workerStep (loads : String → Option JValue) (putOk : WItem → Bool)
    (now : String) (acc : WorkerOutput) (r : SqsRecord) : WorkerOutput :=
  match runRecord loads now r with
  | StepResult.failEarly =>
    { acc with batchItemFailures := acc.batchItemFailures ++ [r.messageId] }
  | StepResult.failAfterSleep slp =>
    { acc with sleeps := acc.sleeps ++ [slp],
               batchItemFailures := acc.batchItemFailures ++ [r.messageId] }
  | StepResult.built slp item =>
    if putOk item then
      { acc with sleeps := acc.sleeps ++ [slp],
                 store := upsert acc.store (item.tenant_id, item.log_id) item }
    else
      { acc with sleeps := acc.sleeps ++ [slp],
                 batchItemFailures := acc.batchItemFailures ++ [r.messageId] }

namespace Worker

/-- Shallow embedding of lambda_handler in src/worker.py: fold the
per-record step over the delivered batch, starting from an empty failure
list and the current store state. -/
def lambda_handler (loads : String → Option JValue) (putOk : WItem → Bool)
    (now : String) (records : List SqsRecord) (store0 : Store) : WorkerOutput :=
  records.foldl (workerStep loads putOk now)
    { batchItemFailures := [], store := store0, sleeps := [] }

end Worker

/-- Concrete JSON codec instance used to evaluate the theorems on
concrete inputs (a test double for json.loads, defined on the handful of
bodies the witnesses use; every other string is a parse failure). -/
def demoLoads : String → Option JValue
  | "\x7b\"tenant_id\": \"acme\", \"text\": \"hello\", \"log_id\": \"abc\"\x7d" =>
    some (JValue.jobj [("tenant_id", JValue.jstr "acme"),
      ("text", JValue.jstr "hello"), ("log_id", JValue.jstr "abc")])
  | "\x7b\"tenant_id\": \"acme\", \"text\": \"hi\"\x7d" =>
    some (JValue.jobj [("tenant_id", JValue.jstr "acme"), ("text", JValue.jstr "hi")])
  | "\x7b\"tenant_id\": \"t1\", \"log_id\": \"L1\", \"original_text\": \"hello world\", \"source\": \"json_upload\"\x7d" =>
    some (JValue.jobj [("tenant_id", JValue.jstr "t1"), ("log_id", JValue.jstr "L1"),
      ("original_text", JValue.jstr "hello world"), ("source", JValue.jstr "json_upload")])
  | "\x7b\"tenant_id\": \"t2\", \"log_id\": \"L2\", \"original_text\": \"abc\", \"source\": \"text_upload\"\x7d" =>
    some (JValue.jobj [("tenant_id", JValue.jstr "t2"), ("log_id", JValue.jstr "L2"),
      ("original_text", JValue.jstr "abc"), ("source", JValue.jstr "text_upload")])
  | _ => none

/-- Concrete transport-decoder instance (a test double for
base64.b64decode composed with utf-8 decoding). -/
def demoB64 : String → Option String
  | "aGVsbG8=" => some "hello"
  | _ => none

/-- Envelope body of the first valid worker demo record. -/
def demoEnv1 : String :=
  "\x7b\"tenant_id\": \"t1\", \"log_id\": \"L1\", \"original_text\": \"hello world\", \"source\": \"json_upload\"\x7d"

/-- Envelope body of the second valid worker demo record. -/
def demoEnv2 : String :=
  "\x7b\"tenant_id\": \"t2\", \"log_id\": \"L2\", \"original_text\": \"abc\", \"source\": \"text_upload\"\x7d"

/-- The sleep durations one record execution performs. -/
def stepSleeps : StepResult → List ℚ
  | StepResult.failEarly => []
  | StepResult.failAfterSleep slp => [slp]
  | StepResult.built slp _ => [slp]

/-- What one record contributes to the store: an upsert on success,
nothing on any failure. -/
def storeEffect (loads : String → Option JValue) (putOk : WItem → Bool)
    (now : String) (s : Store) (r : SqsRecord) : Store :=
  match runRecord loads now r with
  | StepResult.built _ item =>
    if putOk item then upsert s (item.tenant_id, item.log_id) item else s
  | _ => s

/-! ## Sanity checks evaluating the embeddings on concrete inputs -/

example : pyIn "application/json" "application/json; charset=utf-8" = true := by decide
example : pyIn "application/json" "" = false := by decide
example : pyIn "text/plain" "text/plain" = true := by decide

example :
    (Worker.lambda_handler demoLoads (fun _ => true) "2026-01-01T00:00:00"
      [⟨"m1", "not json"⟩, ⟨"m2", demoEnv1⟩, ⟨"m3", demoEnv2⟩] []).batchItemFailures
      = ["m1"] := by rfl

example :
    (Worker.lambda_handler demoLoads (fun _ => true) "2026-01-01T00:00:00"
      [⟨"m1", "not json"⟩, ⟨"m2", demoEnv1⟩, ⟨"m3", demoEnv2⟩] []).store.length
      = 2 := by rfl

example :
    (Ingest.lambda_handler demoLoads demoB64 true 7
      { headers := [("Content-Type", "application/json")],
        body := "\x7b\"tenant_id\": \"acme\", \"text\": \"hello\", \"log_id\": \"abc\"\x7d",
        isBase64Encoded := false }).sendCalls
      = [[("tenant_id", JValue.jstr "acme"), ("log_id", JValue.jstr "abc"),
          ("original_text", JValue.jstr "hello"), ("source", JValue.jstr "json_upload")]] := by
  rfl

example :
    (Ingest.lambda_handler demoLoads demoB64 true 7
      { headers := [("content-type", "text/plain"), ("x-tenant-id", "beta")],
        body := "hi there", isBase64Encoded := false }).sendCalls
      = [[("tenant_id", JValue.jstr "beta"), ("log_id", JValue.jstr (uuidStr 7)),
          ("original_text", JValue.jstr "hi there"),
          ("source", JValue.jstr "text_upload")]] := by
  rfl

example :
    (Ingest.lambda_handler demoLoads demoB64 true 7
      { headers := [("content-type", "application/pdf")],
        body := "x", isBase64Encoded := false }).resp.statusCode = 400 := by rfl

example :
    (Ingest.lambda_handler demoLoads demoB64 true 7
      { headers := [], body := "%%%", isBase64Encoded := true }).resp.statusCode
      = 500 := by rfl

mutual

theorem JValue.beq_refl : ∀ v : JValue, JValue.beq v v = true
  | .jnull => rfl
  | .jbool a => by simp [JValue.beq]
  | .jnum a => by simp [JValue.beq]
  | .jstr a => by simp [JValue.beq]
  | .jarr xs => by simp [JValue.beq, JValue.beqList_refl xs]
  | .jobj xs => by simp [JValue.beq, JValue.beqFields_refl xs]

theorem JValue.beqList_refl : ∀ xs : List JValue, JValue.beqList xs xs = true
  | [] => rfl
  | x :: xs => by simp [JValue.beqList, JValue.beq_refl x, JValue.beqList_refl xs]

theorem JValue.beqFields_refl : ∀ xs : List (String × JValue), JValue.beqFields xs xs = true
  | [] => rfl
  | (k, v) :: xs => by
      simp [JValue.beqFields, JValue.beq_refl v, JValue.beqFields_refl xs]

end

theorem hexFixed_length (w v : Nat) : (hexFixed w v).length = w := by
  induction w generalizing v with
  | zero => rfl
  | succ w ih => simp [hexFixed, ih]

theorem uuidStr_length (n : Nat) : (uuidStr n).length = 36 := by
  simp [uuidStr, String.length, hexFixed_length]

theorem uuidStr_ne_empty (n : Nat) : uuidStr n ≠ "" := by
  intro h
  have := uuidStr_length n
  rw [h] at this
  simp [String.length] at this

/-! ## Worker lemma layer: factoring the batch fold into per-record pieces,
then the claims about the batch processor -/

theorem workerStep_batchItemFailures (loads : String → Option JValue)
    (putOk : WItem → Bool) (now : String) (acc : WorkerOutput) (r : SqsRecord) :
    (workerStep loads putOk now acc r).batchItemFailures
      = acc.batchItemFailures
        ++ (if recFails loads putOk now r then [r.messageId] else []) := by
  unfold workerStep recFails
  cases h : runRecord loads now r with
  | failEarly => simp
  | failAfterSleep slp => simp
  | built slp item => cases hp : putOk item <;> simp [hp]

theorem workerStep_store (loads : String → Option JValue) (putOk : WItem → Bool)
    (now : String) (acc : WorkerOutput) (r : SqsRecord) :
    (workerStep loads putOk now acc r).store = storeEffect loads putOk now acc.store r := by
  unfold workerStep storeEffect
  cases h : runRecord loads now r with
  | failEarly => simp
  | failAfterSleep slp => simp
  | built slp item => cases hp : putOk item <;> simp [hp]

theorem workerStep_sleeps (loads : String → Option JValue) (putOk : WItem → Bool)
    (now : String) (acc : WorkerOutput) (r : SqsRecord) :
    (workerStep loads putOk now acc r).sleeps
      = acc.sleeps ++ stepSleeps (runRecord loads now r) := by
  unfold workerStep stepSleeps
  cases h : runRecord loads now r with
  | failEarly => simp
  | failAfterSleep slp => simp
  | built slp item => cases hp : putOk item <;> simp [hp]

theorem foldl_workerStep_batchItemFailures (loads : String → Option JValue)
    (putOk : WItem → Bool) (now : String) (records : List SqsRecord) :
    ∀ acc : WorkerOutput,
      (records.foldl (workerStep loads putOk now) acc).batchItemFailures
        = acc.batchItemFailures
          ++ (records.filter (recFails loads putOk now)).map (fun r => r.messageId) := by
  induction records with
  | nil => intro acc; simp
  | cons r rs ih =>
    intro acc
    rw [List.foldl_cons, ih, workerStep_batchItemFailures]
    by_cases h : recFails loads putOk now r = true
    · simp [List.filter_cons, h]
    · simp only [Bool.not_eq_true] at h
      simp [List.filter_cons, h]

theorem foldl_workerStep_store (loads : String → Option JValue) (putOk : WItem → Bool)
    (now : String) (records : List SqsRecord) :
    ∀ acc : WorkerOutput,
      (records.foldl (workerStep loads putOk now) acc).store
        = records.foldl (storeEffect loads putOk now) acc.store := by
  induction records with
  | nil => intro acc; simp
  | cons r rs ih =>
    intro acc
    rw [List.foldl_cons, ih, List.foldl_cons, workerStep_store]

theorem foldl_workerStep_sleeps (loads : String → Option JValue) (putOk : WItem → Bool)
    (now : String) (records : List SqsRecord) :
    ∀ acc : WorkerOutput,
      (records.foldl (workerStep loads putOk now) acc).sleeps
        = acc.sleeps ++ (records.map (fun r => stepSleeps (runRecord loads now r))).flatten := by
  induction records with
  | nil => intro acc; simp
  | cons r rs ih =>
    intro acc
    rw [List.foldl_cons, ih, workerStep_sleeps]
    simp

theorem stepSleeps_shape (loads : String → Option JValue) (now : String) (r : SqsRecord) :
    ∀ q ∈ stepSleeps (runRecord loads now r), ∃ n : Nat, q = sleepSecs n := by
  simp only [runRecord]
  split
  · simp [stepSleeps]
  · split
    · split
      · simp [stepSleeps]
      · split
        · simp [stepSleeps]
        · simp [stepSleeps]
    · simp [stepSleeps]

theorem storeEffect_of_recFails (loads : String → Option JValue) (putOk : WItem → Bool)
    (now : String) (s : Store) (r : SqsRecord)
    (h : recFails loads putOk now r = true) :
    storeEffect loads putOk now s r = s := by
  unfold storeEffect
  unfold recFails at h
  cases hr : runRecord loads now r with
  | failEarly => simp
  | failAfterSleep slp => simp
  | built slp item =>
    rw [hr] at h
    simp only [Bool.not_eq_true'] at h
    simp [h]

/-- Claim C1: for every batch delivered to the batch processor, the
returned failure set is exactly the list of delivery identifiers of the
records whose processing failed (deserialization, processing, or
store-write failure), in batch order; and a failing record contributes
nothing to the store — deleting it from the batch leaves the final store
unchanged, so a failure in one message never prevents the other messages
of the batch from being processed and upserted. -/
theorem batch_failure_isolation (loads : String → Option JValue)
    (putOk : WItem → Bool) (now : String) (records : List SqsRecord) (store0 : Store) :
    (Worker.lambda_handler loads putOk now records store0).batchItemFailures
      = (records.filter (recFails loads putOk now)).map (fun r => r.messageId)
    ∧ (∀ pre bad post, records = pre ++ bad :: post →
        recFails loads putOk now bad = true →
        (Worker.lambda_handler loads putOk now records store0).store
          = (Worker.lambda_handler loads putOk now (pre ++ post) store0).store) := by
  constructor
  · rw [Worker.lambda_handler, foldl_workerStep_batchItemFailures]
    simp
  · intro pre bad post hrec hbad
    subst hrec
    unfold Worker.lambda_handler
    rw [foldl_workerStep_store, foldl_workerStep_store,
        List.foldl_append, List.foldl_append, List.foldl_cons,
        storeEffect_of_recFails loads putOk now _ bad hbad]

/-- Witness for C1 at the concrete scenario of the claim: a batch holding
one message whose body fails to deserialize and two valid messages yields
a failure set of size one, a store identical to the one obtained without
the bad message, and two stored records. -/
theorem batch_failure_isolation_witness :
    (Worker.lambda_handler demoLoads (fun _ => true) "2026-01-01T00:00:00"
        [⟨"m1", "not json"⟩, ⟨"m2", demoEnv1⟩, ⟨"m3", demoEnv2⟩] []).batchItemFailures
      = ["m1"]
    ∧ (Worker.lambda_handler demoLoads (fun _ => true) "2026-01-01T00:00:00"
        [⟨"m1", "not json"⟩, ⟨"m2", demoEnv1⟩, ⟨"m3", demoEnv2⟩] []).store
      = (Worker.lambda_handler demoLoads (fun _ => true) "2026-01-01T00:00:00"
          [⟨"m2", demoEnv1⟩, ⟨"m3", demoEnv2⟩] []).store
    ∧ (Worker.lambda_handler demoLoads (fun _ => true) "2026-01-01T00:00:00"
        [⟨"m1", "not json"⟩, ⟨"m2", demoEnv1⟩, ⟨"m3", demoEnv2⟩] []).store.length
      = 2 := by
  refine ⟨?_, ?_, ?_⟩
  · rw [(batch_failure_isolation demoLoads (fun _ => true) "2026-01-01T00:00:00"
        [⟨"m1", "not json"⟩, ⟨"m2", demoEnv1⟩, ⟨"m3", demoEnv2⟩] []).1]
    rfl
  · exact (batch_failure_isolation demoLoads (fun _ => true) "2026-01-01T00:00:00"
        [⟨"m1", "not json"⟩, ⟨"m2", demoEnv1⟩, ⟨"m3", demoEnv2⟩] []).2
        [] ⟨"m1", "not json"⟩ [⟨"m2", demoEnv1⟩, ⟨"m3", demoEnv2⟩] rfl rfl
  · rfl

/-- Items built from the same record body agree on everything except the
processing timestamp: runRecord is deterministic in the record. -/
theorem runRecord_built_fields (loads : String → Option JValue) (now1 now2 : String)
    (r : SqsRecord) (s1 s2 : ℚ) (i1 i2 : WItem)
    (h1 : runRecord loads now1 r = StepResult.built s1 i1)
    (h2 : runRecord loads now2 r = StepResult.built s2 i2) :
    i2 = { i1 with processed_at := now2 } := by
  simp only [runRecord] at h1 h2
  cases hl : loads r.body with
  | none => rw [hl] at h1; exact absurd h1 (by simp)
  | some v =>
    rw [hl] at h1 h2
    cases v with
    | jobj body =>
      simp only at h1 h2
      cases hn : pyLen ((lookupLast body "original_text").getD (JValue.jstr "")) with
      | none => rw [hn] at h1; exact absurd h1 (by simp)
      | some n =>
        rw [hn] at h1 h2
        cases hs : pySlice10 ((lookupLast body "original_text").getD (JValue.jstr "")) with
        | none => rw [hs] at h1; exact absurd h1 (by simp)
        | some preview =>
          rw [hs] at h1 h2
          simp only [StepResult.built.injEq] at h1 h2
          rw [← h1.2, ← h2.2]
    | jnull => exact absurd h1 (by simp)
    | jbool b => exact absurd h1 (by simp)
    | jnum m => exact absurd h1 (by simp)
    | jstr s => exact absurd h1 (by simp)
    | jarr xs => exact absurd h1 (by simp)

/-- Claim C2: processing the same queued envelope twice (modeling queue
redelivery) leaves exactly one ProcessedRecord in the store under the key
(tenant_id, log_id), not two: the second put_item is an upsert that
overwrites the first record with equivalent content (identical except for
the processing timestamp). -/
theorem redelivery_upsert_idempotent (loads : String → Option JValue)
    (putOk : WItem → Bool) (now1 now2 : String) (rec : SqsRecord)
    (s1 s2 : ℚ) (i1 i2 : WItem)
    (h1 : runRecord loads now1 rec = StepResult.built s1 i1) (hp1 : putOk i1 = true)
    (h2 : runRecord loads now2 rec = StepResult.built s2 i2) (hp2 : putOk i2 = true) :
    (Worker.lambda_handler loads putOk now2 [rec]
        ((Worker.lambda_handler loads putOk now1 [rec] []).store)).store
      = [((i2.tenant_id, i2.log_id), i2)]
    ∧ (Worker.lambda_handler loads putOk now2 [rec]
        ((Worker.lambda_handler loads putOk now1 [rec] []).store)).store.length = 1
    ∧ i2 = { i1 with processed_at := now2 } := by
  have hkey := runRecord_built_fields loads now1 now2 rec s1 s2 i1 i2 h1 h2
  have hstore1 : (Worker.lambda_handler loads putOk now1 [rec] []).store
      = [((i1.tenant_id, i1.log_id), i1)] := by
    unfold Worker.lambda_handler
    simp [workerStep, h1, hp1, upsert]
  have hstore2 : (Worker.lambda_handler loads putOk now2 [rec]
      ((Worker.lambda_handler loads putOk now1 [rec] []).store)).store
      = [((i2.tenant_id, i2.log_id), i2)] := by
    rw [hstore1]
    unfold Worker.lambda_handler
    subst hkey
    simp [workerStep, h2, hp2, upsert, keyBeq, JValue.beq_refl]
  refine ⟨hstore2, ?_, hkey⟩
  rw [hstore2]
  rfl

/-- Witness for C2: a concrete envelope delivered twice ends with a
single-entry store holding the second write. -/
theorem redelivery_upsert_idempotent_witness :
    (Worker.lambda_handler demoLoads (fun _ => true) "T2" [⟨"m2", demoEnv1⟩]
        ((Worker.lambda_handler demoLoads (fun _ => true) "T1"
            [⟨"m2", demoEnv1⟩] []).store)).store
      = [((JValue.jstr "t1", JValue.jstr "L1"),
          ⟨JValue.jstr "t1", JValue.jstr "L1", JValue.jstr "json_upload",
           JValue.jstr "hello world", "hello worl... [REDACTED]", "T2"⟩)]
    ∧ (Worker.lambda_handler demoLoads (fun _ => true) "T2" [⟨"m2", demoEnv1⟩]
        ((Worker.lambda_handler demoLoads (fun _ => true) "T1"
            [⟨"m2", demoEnv1⟩] []).store)).store.length = 1 :=
  ⟨(redelivery_upsert_idempotent demoLoads (fun _ => true) "T1" "T2" ⟨"m2", demoEnv1⟩
      (sleepSecs 11) (sleepSecs 11)
      ⟨JValue.jstr "t1", JValue.jstr "L1", JValue.jstr "json_upload",
       JValue.jstr "hello world", "hello worl... [REDACTED]", "T1"⟩
      ⟨JValue.jstr "t1", JValue.jstr "L1", JValue.jstr "json_upload",
       JValue.jstr "hello world", "hello worl... [REDACTED]", "T2"⟩
      rfl rfl rfl rfl).1,
   (redelivery_upsert_idempotent demoLoads (fun _ => true) "T1" "T2" ⟨"m2", demoEnv1⟩
      (sleepSecs 11) (sleepSecs 11)
      ⟨JValue.jstr "t1", JValue.jstr "L1", JValue.jstr "json_upload",
       JValue.jstr "hello world", "hello worl... [REDACTED]", "T1"⟩
      ⟨JValue.jstr "t1", JValue.jstr "L1", JValue.jstr "json_upload",
       JValue.jstr "hello world", "hello worl... [REDACTED]", "T2"⟩
      rfl rfl rfl rfl).2.1⟩

/-- Claim C3: the simulated processing cost of one message equals the
character count of original_text times the fixed per-character unit cost
0.05 when that product does not exceed the hard ceiling 800, and equals
the ceiling otherwise; hence every sleep the batch processor performs is
at most the ceiling, regardless of payload length. -/
theorem cost_clamped_at_ceiling (loads : String → Option JValue) (putOk : WItem → Bool)
    (now : String) (records : List SqsRecord) (store0 : Store) :
    (∀ n : Nat,
       ((n : ℚ) * 0.05 ≤ 800 → sleepSecs n = (n : ℚ) * 0.05)
       ∧ (800 < (n : ℚ) * 0.05 → sleepSecs n = 800)
       ∧ sleepSecs n ≤ 800)
    ∧ ∀ q ∈ (Worker.lambda_handler loads putOk now records store0).sleeps, q ≤ 800 := by
  have hb : ∀ n : Nat, sleepSecs n ≤ 800 := by
    intro n
    unfold sleepSecs
    split
    · exact le_refl (800 : ℚ)
    · next h => exact le_of_not_lt h
  constructor
  · intro n
    refine ⟨?_, ?_, hb n⟩
    · intro h
      unfold sleepSecs
      rw [if_neg (not_lt.2 h)]
    · intro h
      unfold sleepSecs
      rw [if_pos h]
  · intro q hq
    rw [Worker.lambda_handler, foldl_workerStep_sleeps] at hq
    simp only [List.nil_append, List.mem_flatten, List.mem_map] at hq
    obtain ⟨l, ⟨r, hr, rfl⟩, hql⟩ := hq
    obtain ⟨n, rfl⟩ := stepSleeps_shape loads now r q hql
    exact hb n

/-- Witness for C3: the cost of a 40-character payload is 40 x 0.05 = 2
seconds, an oversized payload is clamped to the 800-second ceiling, and a
concrete batch execution only sleeps durations at most the ceiling. -/
theorem cost_clamped_at_ceiling_witness :
    sleepSecs 40 = 2 ∧ sleepSecs 20000 = 800 ∧ sleepSecs 11 ≤ 800 :=
  ⟨(((cost_clamped_at_ceiling demoLoads (fun _ => true) "T" [] []).1 40).1
      (by norm_num)).trans (by norm_num),
   ((cost_clamped_at_ceiling demoLoads (fun _ => true) "T" [] []).1 20000).2.1
      (by norm_num),
   (cost_clamped_at_ceiling demoLoads (fun _ => true) "T"
      [⟨"m2", demoEnv1⟩] []).2 (sleepSecs 11) (by
        show sleepSecs 11 ∈ [sleepSecs 11]
        exact List.mem_singleton.mpr rfl)⟩

/-! ## Claims about the ingest normalizer -/

/-- Counterexample to claim C4 as stated: on a base64-flagged body that
fails to decode, the handler returns the generic 500 server error — the
raised decode error reaches the outer catch-all — not a 400-class client
rejection. -/
theorem b64_decode_failure_counterexample :
    (Ingest.lambda_handler demoLoads demoB64 true 7
        { headers := [("content-type", "text/plain")], body := "%%%",
          isBase64Encoded := true }).resp.statusCode = 500
    ∧ ¬(400 ≤ (Ingest.lambda_handler demoLoads demoB64 true 7
          { headers := [("content-type", "text/plain")], body := "%%%",
            isBase64Encoded := true }).resp.statusCode
        ∧ (Ingest.lambda_handler demoLoads demoB64 true 7
            { headers := [("content-type", "text/plain")], body := "%%%",
              isBase64Encoded := true }).resp.statusCode < 500) := by
  have h : (Ingest.lambda_handler demoLoads demoB64 true 7
      { headers := [("content-type", "text/plain")], body := "%%%",
        isBase64Encoded := true }).resp.statusCode = 500 := rfl
  refine ⟨h, ?_⟩
  rw [h]
  omega

/-- Claim C4 (amended): a submission whose body is flagged as
base64-encoded and cannot be decoded is rejected with the generic
server-error (500) response and enqueues nothing; the garbage body is
never passed through to classification. -/
theorem b64_decode_failure_server_error (loads : String → Option JValue)
    (b64 : String → Option String) (sendOk : Bool) (entropy : Nat) (ev : IngestEvent)
    (henc : ev.isBase64Encoded = true) (hfail : b64 ev.body = none) :
    Ingest.lambda_handler loads b64 sendOk entropy ev
      = { resp := ⟨500, RespBody.text "Internal Server Error"⟩, sendCalls := [] } := by
  unfold Ingest.lambda_handler
  simp [Ingest.decodedBody, henc, hfail]

/-- Witness for the amended C4 at a concrete undecodable event. -/
theorem b64_decode_failure_server_error_witness :
    Ingest.lambda_handler demoLoads demoB64 true 7
        { headers := [("content-type", "text/plain")], body := "%%%",
          isBase64Encoded := true }
      = { resp := ⟨500, RespBody.text "Internal Server Error"⟩, sendCalls := [] } :=
  b64_decode_failure_server_error demoLoads demoB64 true 7
    { headers := [("content-type", "text/plain")], body := "%%%",
      isBase64Encoded := true } rfl rfl

/-- Claim C5: a submission declaring a JSON content type whose body fails
to parse as structured data is rejected with a 400 response and nothing
is enqueued. -/
theorem malformed_json_rejected (loads : String → Option JValue)
    (b64 : String → Option String) (sendOk : Bool) (entropy : Nat)
    (ev : IngestEvent) (body : String)
    (hct : pyIn "application/json" (Ingest.contentType ev) = true)
    (hb : Ingest.decodedBody b64 ev = some body)
    (hl : loads body = none) :
    Ingest.lambda_handler loads b64 sendOk entropy ev
      = { resp := ⟨400, RespBody.text "Invalid JSON"⟩, sendCalls := [] } := by
  unfold Ingest.lambda_handler
  simp [hb, classify, hct, hl]

/-- Witness for C5 at a concrete malformed JSON submission. -/
theorem malformed_json_rejected_witness :
    Ingest.lambda_handler demoLoads demoB64 true 7
        { headers := [("Content-Type", "application/json")], body := "not json",
          isBase64Encoded := false }
      = { resp := ⟨400, RespBody.text "Invalid JSON"⟩, sendCalls := [] } :=
  malformed_json_rejected demoLoads demoB64 true 7
    { headers := [("Content-Type", "application/json")], body := "not json",
      isBase64Encoded := false } "not json" rfl rfl rfl

/-- Claim C6: for a valid structured (JSON) submission accepted by the
handler, the tenant_id and original_text of the enqueued envelope equal the
submitted tenant_id and text fields (with the dict-get defaults), its
log_id equals the submitted log_id when present and otherwise the freshly
generated non-empty uuid string, and the 202 response echoes that same
log_id. -/
theorem json_submission_envelope_fields (loads : String → Option JValue)
    (b64 : String → Option String) (entropy : Nat) (ev : IngestEvent)
    (body : String) (data : List (String × JValue))
    (hct : pyIn "application/json" (Ingest.contentType ev) = true)
    (hb : Ingest.decodedBody b64 ev = some body)
    (hl : loads body = some (JValue.jobj data)) :
    (Ingest.lambda_handler loads b64 true entropy ev).sendCalls
      = [[("tenant_id", (lookupLast data "tenant_id").getD (JValue.jstr "unknown")),
          ("log_id", (lookupLast data "log_id").getD (JValue.jstr (uuidStr entropy))),
          ("original_text", (lookupLast data "text").getD (JValue.jstr "")),
          ("source", JValue.jstr "json_upload")]]
    ∧ (Ingest.lambda_handler loads b64 true entropy ev).resp
        = ⟨202, RespBody.json [("status", JValue.jstr "accepted"),
            ("id", (lookupLast data "log_id").getD (JValue.jstr (uuidStr entropy)))]⟩
    ∧ (lookupLast data "log_id" = none →
        (lookupLast data "log_id").getD (JValue.jstr (uuidStr entropy))
          = JValue.jstr (uuidStr entropy)
        ∧ uuidStr entropy ≠ "") := by
  have hmain : Ingest.lambda_handler loads b64 true entropy ev
      = Ingest.sendAndRespond true
          ((lookupLast data "tenant_id").getD (JValue.jstr "unknown"))
          ((lookupLast data "log_id").getD (JValue.jstr (uuidStr entropy)))
          ((lookupLast data "text").getD (JValue.jstr ""))
          "json_upload" := by
    unfold Ingest.lambda_handler
    simp [hb, classify, hct, hl]
  rw [hmain]
  exact ⟨rfl, rfl, fun hnone => ⟨by rw [hnone]; rfl, uuidStr_ne_empty entropy⟩⟩

/-- Witness for C6 at a concrete JSON submission without a caller log_id:
the envelope carries the submitted tenant and text and the generated
non-empty identifier. -/
theorem json_submission_envelope_fields_witness :
    (Ingest.lambda_handler demoLoads demoB64 true 7
        { headers := [("content-type", "application/json")],
          body := "\x7b\"tenant_id\": \"acme\", \"text\": \"hi\"\x7d",
          isBase64Encoded := false }).sendCalls
      = [[("tenant_id", JValue.jstr "acme"), ("log_id", JValue.jstr (uuidStr 7)),
          ("original_text", JValue.jstr "hi"),
          ("source", JValue.jstr "json_upload")]]
    ∧ uuidStr 7 ≠ "" := by
  have h := json_submission_envelope_fields demoLoads demoB64 7
      { headers := [("content-type", "application/json")],
        body := "\x7b\"tenant_id\": \"acme\", \"text\": \"hi\"\x7d",
        isBase64Encoded := false }
      "\x7b\"tenant_id\": \"acme\", \"text\": \"hi\"\x7d"
      [("tenant_id", JValue.jstr "acme"), ("text", JValue.jstr "hi")] rfl rfl rfl
  exact ⟨h.1, (h.2.2 rfl).2⟩

/-- Claim C7: for a plain-text submission that reaches the text scenario,
the tenant_id of the enqueued envelope equals the x-tenant-id header value
under the case-normalized lookup, or unknown when absent, and
original_text equals the decoded body exactly; moreover the handler result
is invariant under any recasing of the header names (two header lists with
the same case-normalized form give the same result). -/
theorem text_submission_tenant_header (loads : String → Option JValue)
    (b64 : String → Option String) (sendOk : Bool) (entropy : Nat)
    (ev : IngestEvent) (body : String)
    (hj : pyIn "application/json" (Ingest.contentType ev) = false)
    (ht : pyIn "text/plain" (Ingest.contentType ev) = true)
    (hb : Ingest.decodedBody b64 ev = some body) :
    (Ingest.lambda_handler loads b64 sendOk entropy ev).sendCalls
      = [[("tenant_id",
           JValue.jstr ((lookupLast (lowerHeaders ev.headers) "x-tenant-id").getD "unknown")),
          ("log_id", JValue.jstr (uuidStr entropy)),
          ("original_text", JValue.jstr body),
          ("source", JValue.jstr "text_upload")]]
    ∧ (∀ hs' : List (String × String), lowerHeaders ev.headers = lowerHeaders hs' →
        Ingest.lambda_handler loads b64 sendOk entropy { ev with headers := hs' }
          = Ingest.lambda_handler loads b64 sendOk entropy ev) := by
  constructor
  · unfold Ingest.lambda_handler
    cases sendOk <;> simp [hb, classify, hj, ht, Ingest.sendAndRespond]
  · intro hs' hlow
    unfold Ingest.lambda_handler Ingest.contentType Ingest.decodedBody
    dsimp only
    rw [← hlow]

/-- Witness for C7: a mixed-case plain-text submission enqueues the
x-tenant-id header value and the exact body, and recasing the headers to
all lower case leaves the handler result unchanged. -/
theorem text_submission_tenant_header_witness :
    (Ingest.lambda_handler demoLoads demoB64 true 7
        { headers := [("Content-Type", "text/plain"), ("X-Tenant-Id", "beta")],
          body := "hi there", isBase64Encoded := false }).sendCalls
      = [[("tenant_id", JValue.jstr "beta"), ("log_id", JValue.jstr (uuidStr 7)),
          ("original_text", JValue.jstr "hi there"),
          ("source", JValue.jstr "text_upload")]]
    ∧ Ingest.lambda_handler demoLoads demoB64 true 7
        { headers := [("content-type", "text/plain"), ("x-tenant-id", "beta")],
          body := "hi there", isBase64Encoded := false }
      = Ingest.lambda_handler demoLoads demoB64 true 7
        { headers := [("Content-Type", "text/plain"), ("X-Tenant-Id", "beta")],
          body := "hi there", isBase64Encoded := false } := by
  have h := text_submission_tenant_header demoLoads demoB64 true 7
      { headers := [("Content-Type", "text/plain"), ("X-Tenant-Id", "beta")],
        body := "hi there", isBase64Encoded := false }
      "hi there" rfl rfl rfl
  exact ⟨h.1, h.2 [("content-type", "text/plain"), ("x-tenant-id", "beta")] rfl⟩

/-- Every ingest invocation either returns a plain 400 or 500 response
with no send_message call, or reaches step 5 with a fully constructed
envelope on a route-determined source: the complete case analysis of the
handler control flow. -/
theorem handler_shape (loads : String → Option JValue) (b64 : String → Option String)
    (sendOk : Bool) (entropy : Nat) (ev : IngestEvent) :
    (∃ code s, Ingest.lambda_handler loads b64 sendOk entropy ev
        = { resp := ⟨code, RespBody.text s⟩, sendCalls := [] }
      ∧ (code = 400 ∨ code = 500))
    ∨ (∃ t l p st bodyv, Ingest.lambda_handler loads b64 sendOk entropy ev
        = Ingest.sendAndRespond sendOk t l p st
      ∧ Ingest.decodedBody b64 ev = some bodyv
      ∧ ((classify (Ingest.contentType ev) = Route.jsonRoute ∧ st = "json_upload")
         ∨ (classify (Ingest.contentType ev) = Route.textRoute ∧ st = "text_upload"))) := by
  cases hd : Ingest.decodedBody b64 ev with
  | none =>
    refine Or.inl ⟨500, "Internal Server Error", ?_, Or.inr rfl⟩
    unfold Ingest.lambda_handler
    simp [hd]
  | some body =>
    cases hcl : classify (Ingest.contentType ev) with
    | jsonRoute =>
      cases hl : loads body with
      | none =>
        refine Or.inl ⟨400, "Invalid JSON", ?_, Or.inl rfl⟩
        unfold Ingest.lambda_handler
        simp [hd, hcl, hl]
      | some v =>
        cases v with
        | jobj data =>
          refine Or.inr ⟨(lookupLast data "tenant_id").getD (JValue.jstr "unknown"),
            (lookupLast data "log_id").getD (JValue.jstr (uuidStr entropy)),
            (lookupLast data "text").getD (JValue.jstr ""),
            "json_upload", body, ?_, rfl, Or.inl ⟨rfl, rfl⟩⟩
          unfold Ingest.lambda_handler
          simp [hd, hcl, hl]
        | jnull =>
          refine Or.inl ⟨500, "Internal Server Error", ?_, Or.inr rfl⟩
          unfold Ingest.lambda_handler
          simp [hd, hcl, hl]
        | jbool b =>
          refine Or.inl ⟨500, "Internal Server Error", ?_, Or.inr rfl⟩
          unfold Ingest.lambda_handler
          simp [hd, hcl, hl]
        | jnum n =>
          refine Or.inl ⟨500, "Internal Server Error", ?_, Or.inr rfl⟩
          unfold Ingest.lambda_handler
          simp [hd, hcl, hl]
        | jstr s =>
          refine Or.inl ⟨500, "Internal Server Error", ?_, Or.inr rfl⟩
          unfold Ingest.lambda_handler
          simp [hd, hcl, hl]
        | jarr xs =>
          refine Or.inl ⟨500, "Internal Server Error", ?_, Or.inr rfl⟩
          unfold Ingest.lambda_handler
          simp [hd, hcl, hl]
    | textRoute =>
      refine Or.inr ⟨JValue.jstr ((lookupLast (lowerHeaders ev.headers) "x-tenant-id").getD "unknown"),
        JValue.jstr (uuidStr entropy), JValue.jstr body, "text_upload", body,
        ?_, rfl, Or.inr ⟨rfl, rfl⟩⟩
      unfold Ingest.lambda_handler
      simp [hd, hcl]
    | unsupported =>
      refine Or.inl ⟨400, "Unsupported Content-Type", ?_, Or.inl rfl⟩
      unfold Ingest.lambda_handler
      simp [hd, hcl]

/-- Claim C8: the handler calls send_message at most once, and only with a
fully constructed four-field envelope; a 202 response means exactly one
call was made, while every rejection path — 400 responses (unsupported
content type, malformed JSON) and a failed transport decode — makes zero
calls. -/
theorem enqueue_at_most_once (loads : String → Option JValue)
    (b64 : String → Option String) (sendOk : Bool) (entropy : Nat) (ev : IngestEvent) :
    (Ingest.lambda_handler loads b64 sendOk entropy ev).sendCalls.length ≤ 1
    ∧ ((Ingest.lambda_handler loads b64 sendOk entropy ev).resp.statusCode = 202 →
        (Ingest.lambda_handler loads b64 sendOk entropy ev).sendCalls.length = 1)
    ∧ ((Ingest.lambda_handler loads b64 sendOk entropy ev).resp.statusCode = 400 →
        (Ingest.lambda_handler loads b64 sendOk entropy ev).sendCalls = [])
    ∧ (Ingest.decodedBody b64 ev = none →
        (Ingest.lambda_handler loads b64 sendOk entropy ev).sendCalls = [])
    ∧ (∀ msg ∈ (Ingest.lambda_handler loads b64 sendOk entropy ev).sendCalls,
        ∃ t l p st, msg = [("tenant_id", t), ("log_id", l), ("original_text", p),
          ("source", JValue.jstr st)]) := by
  obtain ⟨code, s, heq, hcode⟩ | ⟨t, l, p, st, bodyv, heq, hbody, hroute⟩ :=
    handler_shape loads b64 sendOk entropy ev
  · rw [heq]
    refine ⟨by simp, ?_, fun _ => rfl, fun _ => rfl, by simp⟩
    intro h202
    simp only at h202
    rcases hcode with h | h <;> omega
  · rw [heq]
    refine ⟨?_, ?_, ?_, ?_, ?_⟩
    · cases sendOk <;> simp [Ingest.sendAndRespond]
    · intro _
      cases sendOk <;> simp [Ingest.sendAndRespond]
    · intro h400
      cases sendOk <;> simp [Ingest.sendAndRespond] at h400
    · intro hnone
      rw [hnone] at hbody
      exact absurd hbody (by simp)
    · intro msg hmsg
      cases sendOk <;> simp [Ingest.sendAndRespond] at hmsg <;>
        exact ⟨t, l, p, st, hmsg⟩

/-- Witness for C8: an unsupported-content-type submission makes zero
send_message calls, and an accepted plain-text submission makes exactly
one. -/
theorem enqueue_at_most_once_witness :
    (Ingest.lambda_handler demoLoads demoB64 true 7
        { headers := [("content-type", "application/pdf")], body := "x",
          isBase64Encoded := false }).sendCalls = []
    ∧ (Ingest.lambda_handler demoLoads demoB64 true 7
        { headers := [("content-type", "text/plain")], body := "hi",
          isBase64Encoded := false }).sendCalls.length = 1 :=
  ⟨(enqueue_at_most_once demoLoads demoB64 true 7
      { headers := [("content-type", "application/pdf")], body := "x",
        isBase64Encoded := false }).2.2.1 rfl,
   (enqueue_at_most_once demoLoads demoB64 true 7
      { headers := [("content-type", "text/plain")], body := "hi",
        isBase64Encoded := false }).2.1 rfl⟩

/-- Claim C9: every envelope the handler enqueues is well-formed — it
carries exactly the four fields tenant_id, log_id, original_text and
source, in that order, with the source value json_upload or text_upload
according to which normalization route produced it; rejected submissions
never reach the enqueue step. -/
theorem enqueued_envelope_wellformed (loads : String → Option JValue)
    (b64 : String → Option String) (sendOk : Bool) (entropy : Nat) (ev : IngestEvent) :
    ∀ msg ∈ (Ingest.lambda_handler loads b64 sendOk entropy ev).sendCalls,
      msg.map Prod.fst = ["tenant_id", "log_id", "original_text", "source"]
      ∧ (lookupLast msg "source" = some (JValue.jstr "json_upload")
         ∨ lookupLast msg "source" = some (JValue.jstr "text_upload"))
      ∧ (classify (Ingest.contentType ev) = Route.jsonRoute →
          lookupLast msg "source" = some (JValue.jstr "json_upload"))
      ∧ (classify (Ingest.contentType ev) = Route.textRoute →
          lookupLast msg "source" = some (JValue.jstr "text_upload")) := by
  obtain ⟨code, s, heq, hcode⟩ | ⟨t, l, p, st, bodyv, heq, hbody, hroute⟩ :=
    handler_shape loads b64 sendOk entropy ev
  · rw [heq]
    intro msg hmsg
    exact absurd hmsg (by simp)
  · rw [heq]
    intro msg hmsg
    have hm : msg = [("tenant_id", t), ("log_id", l), ("original_text", p),
        ("source", JValue.jstr st)] := by
      cases sendOk <;> simpa [Ingest.sendAndRespond] using hmsg
    subst hm
    have hsrc : lookupLast [("tenant_id", t), ("log_id", l), ("original_text", p),
        ("source", JValue.jstr st)] "source" = some (JValue.jstr st) := rfl
    rcases hroute with ⟨hcl, hst⟩ | ⟨hcl, hst⟩
    · subst hst
      exact ⟨rfl, Or.inl hsrc, fun _ => hsrc, fun hc => absurd (hcl ▸ hc) (by simp)⟩
    · subst hst
      exact ⟨rfl, Or.inr hsrc, fun hc => absurd (hcl ▸ hc) (by simp), fun _ => hsrc⟩

/-- Witness for C9: the envelope enqueued for a concrete plain-text
submission carries the four fields with source text_upload. -/
theorem enqueued_envelope_wellformed_witness :
    ([("tenant_id", JValue.jstr "beta"), ("log_id", JValue.jstr (uuidStr 7)),
      ("original_text", JValue.jstr "hi there"),
      ("source", JValue.jstr "text_upload")] : Msg).map Prod.fst
      = ["tenant_id", "log_id", "original_text", "source"]
    ∧ lookupLast [("tenant_id", JValue.jstr "beta"), ("log_id", JValue.jstr (uuidStr 7)),
        ("original_text", JValue.jstr "hi there"),
        ("source", JValue.jstr "text_upload")] "source"
      = some (JValue.jstr "text_upload") := by
  have h := enqueued_envelope_wellformed demoLoads demoB64 true 7
      { headers := [("content-type", "text/plain"), ("x-tenant-id", "beta")],
        body := "hi there", isBase64Encoded := false }
      [("tenant_id", JValue.jstr "beta"), ("log_id", JValue.jstr (uuidStr 7)),
       ("original_text", JValue.jstr "hi there"),
       ("source", JValue.jstr "text_upload")]
      (by
        show _ ∈ [[("tenant_id", JValue.jstr "beta"), ("log_id", JValue.jstr (uuidStr 7)),
          ("original_text", JValue.jstr "hi there"),
          ("source", JValue.jstr "text_upload")]]
        exact List.mem_singleton.mpr rfl)
  exact ⟨h.1, h.2.2.2 rfl⟩

/-- Claim C10: content-type classification is by substring containment
with the application/json test first — any declared value containing
application/json (with parameters, or even also containing text/plain)
takes the JSON route, any other value containing text/plain takes the
plain-text route, anything else is unsupported; a missing content-type
header yields the empty string, and for a submission whose body decodes,
an unsupported classification is rejected with the 400 response and
nothing enqueued. -/
theorem content_type_classification (loads : String → Option JValue)
    (b64 : String → Option String) (sendOk : Bool) (entropy : Nat)
    (ev : IngestEvent) (body : String) :
    (∀ ct, pyIn "application/json" ct = true → classify ct = Route.jsonRoute)
    ∧ (∀ ct, pyIn "application/json" ct = false → pyIn "text/plain" ct = true →
        classify ct = Route.textRoute)
    ∧ (∀ ct, pyIn "application/json" ct = false → pyIn "text/plain" ct = false →
        classify ct = Route.unsupported)
    ∧ classify "application/json; charset=utf-8" = Route.jsonRoute
    ∧ classify "text/plain or application/json" = Route.jsonRoute
    ∧ classify "" = Route.unsupported
    ∧ (lookupLast (lowerHeaders ev.headers) "content-type" = none →
        Ingest.contentType ev = "")
    ∧ (Ingest.decodedBody b64 ev = some body →
        classify (Ingest.contentType ev) = Route.unsupported →
        Ingest.lambda_handler loads b64 sendOk entropy ev
          = { resp := ⟨400, RespBody.text "Unsupported Content-Type"⟩,
              sendCalls := [] }) := by
  refine ⟨?_, ?_, ?_, by decide, by decide, by decide, ?_, ?_⟩
  · intro ct h
    simp [classify, h]
  · intro ct h1 h2
    simp [classify, h1, h2]
  · intro ct h1 h2
    simp [classify, h1, h2]
  · intro h
    unfold Ingest.contentType
    rw [h]
    rfl
  · intro hb hcl
    unfold Ingest.lambda_handler
    simp [hb, hcl]

/-- Witness for C10: a request with no content-type header classifies as
the empty string and is rejected as unsupported with no enqueue. -/
theorem content_type_classification_witness :
    Ingest.contentType { headers := [], body := "x", isBase64Encoded := false } = ""
    ∧ Ingest.lambda_handler demoLoads demoB64 true 7
        { headers := [], body := "x", isBase64Encoded := false }
      = { resp := ⟨400, RespBody.text "Unsupported Content-Type"⟩, sendCalls := [] }
    ∧ classify "APPLICATION/JSON" = Route.unsupported :=
  ⟨(content_type_classification demoLoads demoB64 true 7
      { headers := [], body := "x", isBase64Encoded := false } "x").2.2.2.2.2.2.1 rfl,
   (content_type_classification demoLoads demoB64 true 7
      { headers := [], body := "x", isBase64Encoded := false } "x").2.2.2.2.2.2.2 rfl rfl,
   (content_type_classification demoLoads demoB64 true 7
      { headers := [], body := "x", isBase64Encoded := false } "x").2.2.1
      "APPLICATION/JSON" (by decide) (by decide)⟩
